import Mathlib

set_option maxRecDepth 4000

namespace OpenclawMT

/-! String helpers modelling JavaScript string operations on the ASCII fragment
used by the gateway code. -/

/-- Does the second list start with the first one (pattern, then text)? -/
def startsWithList : List Char → List Char → Bool
  | [], _ => true
  | _ :: _, [] => false
  | p :: ps, c :: cs => p == c && startsWithList ps cs

/-- Does the text contain the pattern as a contiguous sublist? -/
def containsSub (pat : List Char) : List Char → Bool
  | [] => pat.isEmpty
  | c :: cs => startsWithList pat (c :: cs) || containsSub pat cs

/-- Substring containment on strings, modelling the String.includes check of a test. -/
def strContains (s pat : String) : Bool :=
  containsSub pat.data s.data

/-- Model of the JavaScript String.startsWith method. -/
def strStartsWith (s pre : String) : Bool :=
  startsWithList pre.data s.data

/-- Does the text end with the given list? -/
def endsWithList (suf l : List Char) : Bool :=
  startsWithList suf.reverse l.reverse

/-- Model of the JavaScript String.endsWith method. -/
def strEndsWith (s suf : String) : Bool :=
  endsWithList suf.data s.data

theorem strData_append (a b : String) : (a ++ b).data = a.data ++ b.data := by
  cases a
  cases b
  rfl

theorem startsWithList_self_append (p t : List Char) :
    startsWithList p (p ++ t) = true := by
  induction p with
  | nil => rfl
  | cons c cs ih => simp [startsWithList, ih]

theorem containsSub_self_append (p t : List Char) :
    containsSub p (p ++ t) = true := by
  cases p with
  | nil =>
    cases t with
    | nil => rfl
    | cons c cs => simp [containsSub, startsWithList]
  | cons q qs =>
    show containsSub (q :: qs) (q :: (qs ++ t)) = true
    have h := startsWithList_self_append (q :: qs) t
    simp [containsSub]
    exact Or.inl h

theorem strContains_of_append (pre suf : String) :
    strContains (pre ++ suf) pre = true := by
  unfold strContains
  rw [strData_append]
  exact containsSub_self_append _ _

theorem endsWithList_append (pre suf : List Char) :
    endsWithList suf (pre ++ suf) = true := by
  unfold endsWithList
  rw [List.reverse_append]
  exact startsWithList_self_append _ _

theorem strEndsWith_of_append (pre suf : String) :
    strEndsWith (pre ++ suf) suf = true := by
  unfold strEndsWith
  rw [strData_append]
  exact endsWithList_append _ _

/-- Truthiness of an optional string value in JavaScript: present and non-empty. -/
def optStrTruthy : Option String → Bool
  | none => false
  | some s => s ≠ ""

/-! Model of src/gateway/protocol (part_001): error codes and error shapes. -/

/-- Wire error shape returned by gateway handlers. -/
structure ErrorShape where
  code : String
  message : String
  retryable : Option Bool
  retryAfterMs : Option Int
deriving DecidableEq, Repr

/-- The errorShape constructor of the protocol module, called without options. -/
def errorShape (code message : String) : ErrorShape :=
  { code := code, message := message, retryable := none, retryAfterMs := none }

/-! Model of src/src/gateway/method-auth.ts. -/

def ADMIN_SCOPE : String := "operator.admin"
def READ_SCOPE : String := "operator.read"
def WRITE_SCOPE : String := "operator.write"
def APPROVALS_SCOPE : String := "operator.approvals"
def PAIRING_SCOPE : String := "operator.pairing"

/-- The tenant allow-list set of method names from method-auth.ts. -/
def TENANT_ALLOWED_METHODS : List String :=
  [ "health",
    "terminal.spawn", "terminal.write", "terminal.resize", "terminal.close", "terminal.list",
    "tenants.get", "tenants.rotate", "tenants.backup", "tenants.backups.list",
    "tenants.restore", "tenants.delete", "tenants.usage", "tenants.quota.status",
    "tenants.usage.history",
    "config.get", "config.set", "config.patch", "config.schema",
    "agents.list", "agents.create", "agents.update", "agents.delete",
    "agents.files.list", "agents.files.get", "agents.files.set",
    "sessions.list", "sessions.preview",
    "cron.list", "cron.add", "cron.update", "cron.remove", "cron.status",
    "cron.runs", "cron.run",
    "skills.status", "skills.bins", "skills.install", "skills.update",
    "channels.status", "channels.start", "channels.stop", "channels.logout",
    "voicewake.get", "voicewake.set",
    "device.pair.list", "device.pair.approve", "device.pair.reject",
    "device.token.rotate", "device.token.revoke",
    "node.pair.request", "node.pair.list", "node.pair.approve", "node.pair.reject",
    "node.pair.verify", "node.rename", "node.list", "node.describe", "node.invoke" ]

def APPROVAL_METHODS : List String :=
  ["exec.approval.request", "exec.approval.resolve"]

def NODE_ROLE_METHODS : List String :=
  ["node.invoke.result", "node.event", "skills.bins"]

def PAIRING_METHODS : List String :=
  [ "node.pair.request", "node.pair.list", "node.pair.approve", "node.pair.reject",
    "node.pair.verify",
    "device.pair.list", "device.pair.approve", "device.pair.reject",
    "device.token.rotate", "device.token.revoke",
    "node.rename" ]

def ADMIN_METHOD_PREFIXES : List String := ["exec.approvals."]

def READ_METHODS : List String :=
  [ "health", "logs.tail", "channels.status", "status", "usage.status", "usage.cost",
    "tts.status", "tts.providers", "models.list", "agents.list", "agent.identity.get",
    "skills.status", "voicewake.get", "sessions.list", "sessions.preview",
    "cron.list", "cron.status", "cron.runs", "system-presence", "last-heartbeat",
    "node.list", "node.describe", "chat.history", "terminal.list",
    "tenants.get", "tenants.backups.list", "tenants.usage", "tenants.quota.status",
    "tenants.usage.history" ]

def WRITE_METHODS : List String :=
  [ "send", "agent", "agent.wait", "wake", "talk.mode", "tts.enable", "tts.disable",
    "tts.convert", "tts.setProvider", "voicewake.set", "node.invoke", "chat.send",
    "chat.abort", "browser.request", "terminal.spawn", "terminal.write",
    "terminal.resize", "terminal.close", "tenants.rotate", "tenants.backup" ]

/-- Connect-handshake parameters of a gateway client (role and scope set). -/
structure ConnectParams where
  role : Option String
  scopes : Option (List String)
deriving DecidableEq, Repr

/-- A gateway client connection record, as seen by method authorization
and the terminal handlers. -/
structure GatewayClient where
  connect : Option ConnectParams
  tenantId : Option String
  connId : Option String
deriving DecidableEq, Repr

/-- Model of authorizeGatewayMethod from src/src/gateway/method-auth.ts.
Returns none when the call is permitted and an error shape when rejected;
mirrors the exact check order of the source. -/
def authorizeGatewayMethod (method : String) (client : Option GatewayClient) :
    Option ErrorShape :=
  match client with
  | none => none
  | some cl =>
    match cl.connect with
    | none => none
    | some connect =>
      let role := connect.role.getD "operator"
      let scopes := connect.scopes.getD []
      if NODE_ROLE_METHODS.contains method then
        if role == "node" then none
        else some (errorShape "INVALID_REQUEST" ("unauthorized role: " ++ role))
      else if role == "node" then
        some (errorShape "INVALID_REQUEST" ("unauthorized role: " ++ role))
      else if role != "operator" then
        some (errorShape "INVALID_REQUEST" ("unauthorized role: " ++ role))
      else if optStrTruthy cl.tenantId && !(TENANT_ALLOWED_METHODS.contains method) then
        some (errorShape "INVALID_REQUEST"
          ("method not available for tenant token: " ++ method))
      else if scopes.contains ADMIN_SCOPE then none
      else if APPROVAL_METHODS.contains method && !(scopes.contains APPROVALS_SCOPE) then
        some (errorShape "INVALID_REQUEST" "missing scope: operator.approvals")
      else if PAIRING_METHODS.contains method && !(scopes.contains PAIRING_SCOPE) then
        some (errorShape "INVALID_REQUEST" "missing scope: operator.pairing")
      else if READ_METHODS.contains method &&
          !(scopes.contains READ_SCOPE || scopes.contains WRITE_SCOPE) then
        some (errorShape "INVALID_REQUEST" "missing scope: operator.read")
      else if WRITE_METHODS.contains method && !(scopes.contains WRITE_SCOPE) then
        some (errorShape "INVALID_REQUEST" "missing scope: operator.write")
      else if APPROVAL_METHODS.contains method then none
      else if PAIRING_METHODS.contains method then none
      else if READ_METHODS.contains method then none
      else if WRITE_METHODS.contains method then none
      else if ADMIN_METHOD_PREFIXES.any (fun p => strStartsWith method p) then
        some (errorShape "INVALID_REQUEST" "missing scope: operator.admin")
      else if optStrTruthy cl.tenantId && TENANT_ALLOWED_METHODS.contains method then
        none
      else if strStartsWith method "config." || strStartsWith method "wizard." ||
          strStartsWith method "update." || method == "channels.logout" ||
          method == "agents.create" || method == "agents.update" ||
          method == "agents.delete" || method == "skills.install" ||
          method == "skills.update" || method == "cron.add" ||
          method == "cron.update" || method == "cron.remove" ||
          method == "cron.run" || method == "sessions.patch" ||
          method == "sessions.reset" || method == "sessions.delete" ||
          method == "sessions.compact" then
        some (errorShape "INVALID_REQUEST" "missing scope: operator.admin")
      else
        some (errorShape "INVALID_REQUEST" "missing scope: operator.admin")

/-! Model of src/src/gateway/server-methods/terminal.ts: the PTY session map
and the terminal.write and terminal.list handlers. The PTY process handle is
modelled by its pid; forwarded bytes are collected in a ptyWrites list. -/

/-- A stored PTY session record of the terminal session map. -/
structure TermSession where
  terminalId : String
  tenantId : String
  connId : String
  pid : Int
  createdAt : Int
  lastActivityAt : Int
deriving DecidableEq, Repr

/-- Model of getTenantId in terminal.ts: the optional tenant id of the caller. -/
def getTenantId (client : Option GatewayClient) : Option String :=
  match client with
  | none => none
  | some cl => cl.tenantId

/-- Model of hasAdminScope in terminal.ts. -/
def hasAdminScope (client : Option GatewayClient) : Bool :=
  let scopes :=
    match client with
    | none => []
    | some cl =>
      match cl.connect with
      | none => []
      | some c => c.scopes.getD []
  scopes.contains "operator.admin"

/-- JavaScript strict equality between a string and a nullable string:
a string value never equals null. -/
def jsStrEqOpt (s : String) : Option String → Bool
  | none => false
  | some t => s == t

/-- Parameters of a terminal.write request; an absent field is none. -/
structure TermWriteParams where
  terminalId : Option String
  data : Option String
deriving DecidableEq, Repr

/-- Outcome of a terminal.write call: the response, the session map after the
call, and the data forwarded to PTYs. -/
structure TermWriteResult where
  ok : Bool
  written : Option Nat
  error : Option ErrorShape
  sessions : List TermSession
  ptyWrites : List (String × String)
deriving DecidableEq, Repr

/-- Lookup in the terminal session map. -/
def findSession (sessions : List TermSession) (termId : String) : Option TermSession :=
  sessions.find? (fun s => s.terminalId == termId)

/-- Model of the terminal.write handler of terminal.ts, with the session map
passed explicitly and the clock as an argument. -/
def terminalWrite (sessions : List TermSession) (client : Option GatewayClient)
    (params : TermWriteParams) (now : Int) : TermWriteResult :=
  let tenantId := getTenantId client
  let isAdmin := hasAdminScope client
  if !(optStrTruthy params.terminalId) then
    { ok := false, written := none,
      error := some (errorShape "INVALID_REQUEST" "terminalId required"),
      sessions := sessions, ptyWrites := [] }
  else
    match params.data with
    | none =>
      { ok := false, written := none,
        error := some (errorShape "INVALID_REQUEST" "data required"),
        sessions := sessions, ptyWrites := [] }
    | some data =>
      let termId := params.terminalId.getD ""
      match findSession sessions termId with
      | none =>
        { ok := false, written := none,
          error := some (errorShape "NOT_FOUND" "Terminal session not found"),
          sessions := sessions, ptyWrites := [] }
      | some session =>
        if !isAdmin && !(jsStrEqOpt session.tenantId tenantId) then
          { ok := false, written := none,
            error := some (errorShape "UNAUTHORIZED" "Access denied"),
            sessions := sessions, ptyWrites := [] }
        else
          { ok := true, written := some data.length, error := none,
            sessions := sessions.map (fun s =>
              if s.terminalId == termId then { s with lastActivityAt := now } else s),
            ptyWrites := [(termId, data)] }

/-- One row of the terminal.list response. -/
structure TermSessionInfo where
  terminalId : String
  tenantId : String
  pid : Int
  createdAt : Int
  lastActivityAt : Int
deriving DecidableEq, Repr

/-- Model of the terminal.list handler of terminal.ts: admins see all
sessions, other callers only the sessions whose tenant id strictly equals
the caller's tenant id. -/
def terminalList (sessions : List TermSession) (client : Option GatewayClient) :
    List TermSessionInfo :=
  let tenantId := getTenantId client
  let isAdmin := hasAdminScope client
  (sessions.filter (fun s => isAdmin || jsStrEqOpt s.tenantId tenantId)).map
    (fun s =>
      { terminalId := s.terminalId, tenantId := s.tenantId, pid := s.pid,
        createdAt := s.createdAt, lastActivityAt := s.lastActivityAt })

/-! Character-level helpers shared by the session-key algebra and the tenant
id validation, all phrased over code points to model the ASCII behaviour of
the JavaScript string methods and regexes involved. -/

/-- Lower-case ASCII letter or digit: the class a-z0-9 of the id regexes. -/
def isLowerAlnumCh (c : Char) : Bool :=
  (97 ≤ c.toNat && c.toNat ≤ 122) || (48 ≤ c.toNat && c.toNat ≤ 57)

/-- Character class a-z0-9_- of the id regexes (lower-case only). -/
def isAllowedIdChar (c : Char) : Bool :=
  isLowerAlnumCh c || c.toNat == 95 || c.toNat == 45

/-- Upper-case ASCII letter. -/
def isUpperCh (c : Char) : Bool :=
  65 ≤ c.toNat && c.toNat ≤ 90

/-- ASCII lower-casing of one character, modelling String.toLowerCase on the
character data these functions actually see. -/
def lowerChar (c : Char) : Char :=
  if isUpperCh c then Char.ofNat (c.toNat + 32) else c

/-- Whitespace characters recognised by String.trim that occur in this model. -/
def isWsChar (c : Char) : Bool :=
  c.toNat == 32 || c.toNat == 9 || c.toNat == 10 || c.toNat == 13

theorem toNat_ofNat_valid (n : Nat) (h : n.isValidChar) : (Char.ofNat n).toNat = n := by
  unfold Char.ofNat
  rw [dif_pos h]
  unfold Char.ofNatAux Char.toNat
  simp [UInt32.toNat, BitVec.toNat_ofNatLt]

theorem lowerChar_toNat_of_upper {c : Char} (h : isUpperCh c = true) :
    (lowerChar c).toNat = c.toNat + 32 := by
  have hb : 65 ≤ c.toNat ∧ c.toNat ≤ 90 := by
    simpa [isUpperCh] using h
  unfold lowerChar
  rw [if_pos h]
  exact toNat_ofNat_valid _ (Or.inl (by omega))

theorem lowerChar_of_not_upper {c : Char} (h : isUpperCh c = false) :
    lowerChar c = c := by
  unfold lowerChar
  rw [h]
  rfl

theorem isUpperCh_lowerChar (c : Char) : isUpperCh (lowerChar c) = false := by
  cases h : isUpperCh c with
  | false => rw [lowerChar_of_not_upper h]; exact h
  | true =>
    have hb : 65 ≤ c.toNat ∧ c.toNat ≤ 90 := by
      simpa [isUpperCh] using h
    have ht := lowerChar_toNat_of_upper h
    simp only [isUpperCh]
    rw [ht]
    simp only [Bool.and_eq_false_iff, decide_eq_false_iff_not]
    omega

theorem lowerChar_idem (c : Char) : lowerChar (lowerChar c) = lowerChar c :=
  lowerChar_of_not_upper (isUpperCh_lowerChar c)

theorem allowed_toNat {c : Char} (h : isAllowedIdChar c = true) :
    (97 ≤ c.toNat ∧ c.toNat ≤ 122) ∨ (48 ≤ c.toNat ∧ c.toNat ≤ 57) ∨
      c.toNat = 95 ∨ c.toNat = 45 := by
  simp only [isAllowedIdChar, isLowerAlnumCh, Bool.or_eq_true, Bool.and_eq_true,
    decide_eq_true_eq, beq_iff_eq] at h
  tauto

theorem lowerChar_of_allowed {c : Char} (h : isAllowedIdChar c = true) :
    lowerChar c = c := by
  apply lowerChar_of_not_upper
  have := allowed_toNat h
  simp only [isUpperCh, Bool.and_eq_false_iff, decide_eq_false_iff_not]
  omega

theorem isWsChar_of_allowed {c : Char} (h : isAllowedIdChar c = true) :
    isWsChar c = false := by
  have := allowed_toNat h
  simp only [isWsChar, Bool.or_eq_false_iff, beq_eq_false_iff_ne, Ne]
  omega

theorem isWsChar_lowerChar {c : Char} (h : isWsChar c = false) :
    isWsChar (lowerChar c) = false := by
  cases hu : isUpperCh c with
  | false => rw [lowerChar_of_not_upper hu]; exact h
  | true =>
    have hb : 65 ≤ c.toNat ∧ c.toNat ≤ 90 := by
      simpa [isUpperCh] using hu
    have ht := lowerChar_toNat_of_upper hu
    simp only [isWsChar]
    rw [ht]
    simp only [Bool.or_eq_false_iff, beq_eq_false_iff_ne, Ne]
    omega

theorem not_colon_of_allowed {c : Char} (h : isAllowedIdChar c = true) :
    (c == ':') = false := by
  have := allowed_toNat h
  cases hc : c == ':' with
  | false => rfl
  | true =>
    have hcc : c = ':' := eq_of_beq hc
    subst hcc
    simp at this

/-- Model of String.trim: drop whitespace at both ends. -/
def trimList (l : List Char) : List Char :=
  ((l.dropWhile isWsChar).reverse.dropWhile isWsChar).reverse

/-- Model of the JavaScript String.trim method. -/
def strTrim (s : String) : String :=
  ⟨trimList s.data⟩

/-- Model of the JavaScript String.toLowerCase method (ASCII fragment). -/
def strToLower (s : String) : String :=
  ⟨s.data.map lowerChar⟩

/-- Split a character list at its first colon, returning the parts before
and after it; none when no colon occurs. Models String.indexOf plus the two
slices used by the parsers. -/
def splitFirstColon : List Char → Option (List Char × List Char)
  | [] => none
  | c :: rest =>
    if c == ':' then some ([], rest)
    else
      match splitFirstColon rest with
      | none => none
      | some (a, b) => some (c :: a, b)

theorem dropWhile_eq_self_of_head {p : Char → Bool} :
    ∀ {l : List Char}, (∀ c, l.head? = some c → p c = false) → l.dropWhile p = l
  | [], _ => rfl
  | c :: rest, h => by
    have hc : p c = false := h c rfl
    simp [List.dropWhile, hc]

theorem trimList_eq_self {l : List Char}
    (hhead : ∀ c, l.head? = some c → isWsChar c = false)
    (hlast : ∀ c, l.reverse.head? = some c → isWsChar c = false) :
    trimList l = l := by
  unfold trimList
  rw [dropWhile_eq_self_of_head hhead]
  rw [dropWhile_eq_self_of_head hlast]
  exact List.reverse_reverse l

theorem splitFirstColon_append {l1 : List Char}
    (h : ∀ c ∈ l1, (c == ':') = false) (l2 : List Char) :
    splitFirstColon (l1 ++ ':' :: l2) = some (l1, l2) := by
  induction l1 with
  | nil => simp [splitFirstColon]
  | cons c rest ih =>
    have hc : (c == ':') = false := h c (List.mem_cons_self c rest)
    have hrest : ∀ d ∈ rest, (d == ':') = false := fun d hd => h d (List.mem_cons_of_mem c hd)
    simp only [List.cons_append, splitFirstColon, hc]
    have := ih hrest
    simp only [List.append_eq] at this ⊢
    rw [this]
    simp

/-! Model of the session-key algebra in src/src/routing/session-key.ts. -/

def DEFAULT_AGENT_ID : String := "main"
def DEFAULT_MAIN_KEY : String := "main"

/-- Test of the pre-compiled VALID_ID_RE regex (case-insensitive form
matching one letter or digit followed by up to 63 id characters). -/
def VALID_ID_RE_test (s : String) : Bool :=
  match s.data with
  | [] => false
  | c :: rest =>
    isLowerAlnumCh (lowerChar c) && rest.length ≤ 63 &&
      rest.all (fun d => isAllowedIdChar (lowerChar d))

/-- Model of the global replace of INVALID_CHARS_RE by a dash: runs of
characters outside a-z0-9_- collapse to one dash. The Boolean argument
records whether the previous character was part of such a run. -/
def collapseInvalid : List Char → Bool → List Char
  | [], _ => []
  | c :: rest, prevInv =>
    if isAllowedIdChar c then c :: collapseInvalid rest false
    else if prevInv then collapseInvalid rest true
    else '-' :: collapseInvalid rest true

/-- Model of normalizeAgentId from session-key.ts. -/
def normalizeAgentId (value : Option String) : String :=
  let trimmed := strTrim (value.getD "")
  if trimmed = "" then DEFAULT_AGENT_ID
  else if VALID_ID_RE_test trimmed then strToLower trimmed
  else
    let collapsed := collapseInvalid (strToLower trimmed).data false
    let stripped :=
      ((collapsed.dropWhile (fun c => c == '-')).reverse.dropWhile
        (fun c => c == '-')).reverse
    let clipped := stripped.take 64
    if clipped.isEmpty then DEFAULT_AGENT_ID else ⟨clipped⟩

/-- Model of normalizeMainKey from session-key.ts. -/
def normalizeMainKey (value : Option String) : String :=
  let trimmed := strTrim (value.getD "")
  if trimmed ≠ "" then strToLower trimmed else DEFAULT_MAIN_KEY

/-- Model of buildAgentMainSessionKey from session-key.ts. -/
def buildAgentMainSessionKey (agentId : String) (mainKey : Option String) : String :=
  "agent:" ++ normalizeAgentId (some agentId) ++ ":" ++ normalizeMainKey mainKey

/-- Model of buildTenantSessionKey from session-key.ts. -/
def buildTenantSessionKey (tenantId agentId : String) (mainKey : Option String) : String :=
  "tenant:" ++ strToLower (strTrim tenantId) ++ ":" ++
    buildAgentMainSessionKey agentId mainKey

/-- The parsed form of a non-tenant agent session key. -/
structure ParsedAgentSessionKey where
  agentId : String
  rest : String
deriving DecidableEq, Repr

/-- Modelled from the spec: parseAgentSessionKey lives in
src/sessions/session-key-utils.ts, which is not under src. The spec gives
the non-tenant session key form agent:agentId:rest; parsing splits at the
first colon after the agent marker and fails when either part is empty. -/
def parseAgentSessionKey (key : String) : Option ParsedAgentSessionKey :=
  if strStartsWith key "agent:" then
    match splitFirstColon (key.data.drop 6) with
    | none => none
    | some (aid, rest) =>
      if aid.isEmpty || rest.isEmpty then none
      else some { agentId := ⟨aid⟩, rest := ⟨rest⟩ }
  else none

/-- The parsed form of a tenant session key. -/
structure ParsedTenantSessionKey where
  tenantId : String
  agentKey : String
  agentId : String
  rest : String
deriving DecidableEq, Repr

/-- Model of parseTenantSessionKey from session-key.ts. -/
def parseTenantSessionKey (sessionKey : String) : Option ParsedTenantSessionKey :=
  let trimmed := strToLower (strTrim sessionKey)
  if !(strStartsWith trimmed "tenant:") then none
  else
    match splitFirstColon (trimmed.data.drop 7) with
    | none => none
    | some (tid, agentKeyL) =>
      if tid.isEmpty || agentKeyL.isEmpty then none
      else
        match parseAgentSessionKey ⟨agentKeyL⟩ with
        | none => none
        | some parsed =>
          some { tenantId := ⟨tid⟩, agentKey := ⟨agentKeyL⟩,
                 agentId := parsed.agentId, rest := parsed.rest }

/-! Model of the tenant id validation from src/src/tenants/types.ts. -/

/-- Model of isValidTenantId: the TENANT_ID_PATTERN regex test. -/
def isValidTenantId (s : String) : Bool :=
  match s.data with
  | [] => false
  | c :: rest => isLowerAlnumCh c && rest.length ≤ 31 && rest.all isAllowedIdChar

/-! Facts about the outputs of the session-key normalizers, used to settle
the build and parse round trip. -/

theorem head_dropWhile_false {p : Char → Bool} :
    ∀ {l : List Char} {c : Char}, (l.dropWhile p).head? = some c → p c = false
  | [], c => by simp [List.dropWhile]
  | d :: rest, c => by
    cases hd : p d with
    | true =>
      simp only [List.dropWhile, hd]
      exact head_dropWhile_false
    | false =>
      simp only [List.dropWhile, hd, List.head?_cons, Option.some_inj]
      intro h
      rw [← h]
      exact hd

theorem mem_dropWhile {p : Char → Bool} {l : List Char} {c : Char}
    (h : c ∈ l.dropWhile p) : c ∈ l :=
  (List.dropWhile_sublist p).subset h

theorem mem_trimList {l : List Char} {c : Char} (h : c ∈ trimList l) : c ∈ l := by
  unfold trimList at h
  rw [List.mem_reverse] at h
  have h2 := mem_dropWhile h
  rw [List.mem_reverse] at h2
  exact mem_dropWhile h2

theorem collapseInvalid_allowed :
    ∀ (l : List Char) (b : Bool), ∀ c ∈ collapseInvalid l b, isAllowedIdChar c = true := by
  intro l
  induction l with
  | nil => intro b c h; simp [collapseInvalid] at h
  | cons d rest ih =>
    intro b c h
    cases hd : isAllowedIdChar d with
    | true =>
      simp [collapseInvalid, hd] at h
      rcases h with he | hm
      · subst he; exact hd
      · exact ih false c hm
    | false =>
      cases b with
      | true =>
        simp [collapseInvalid, hd] at h
        exact ih true c h
      | false =>
        simp [collapseInvalid, hd] at h
        rcases h with he | hm
        · subst he; decide
        · exact ih true c hm

theorem string_data_eq_nil_iff (s : String) : s.data = [] ↔ s = "" := by
  cases s with
  | mk l =>
    constructor
    · intro h
      exact congrArg String.mk h
    · intro h
      have h2 : String.mk l = String.mk [] := h
      exact congrArg String.data h2

theorem valid_re_chars {trimmed : String} (h1 : VALID_ID_RE_test trimmed = true) :
    ∀ c ∈ (strToLower trimmed).data, isAllowedIdChar c = true := by
  intro c hc
  unfold strToLower at hc
  simp only [List.mem_map] at hc
  obtain ⟨d, hd, hdc⟩ := hc
  unfold VALID_ID_RE_test at h1
  cases hdata : trimmed.data with
  | nil => rw [hdata] at h1; simp at h1
  | cons e rest =>
    rw [hdata] at h1
    simp only [Bool.and_eq_true, List.all_eq_true] at h1
    rw [hdata] at hd
    rw [← hdc]
    cases hd with
    | head =>
      have := h1.1.1
      simp only [isAllowedIdChar, this]
      rfl
    | tail _ hmem => exact h1.2 d hmem

theorem normalizeAgentId_allowed (v : Option String) :
    ∀ c ∈ (normalizeAgentId v).data, isAllowedIdChar c = true := by
  simp only [normalizeAgentId]
  split
  · decide
  · split
    · rename_i h1
      exact valid_re_chars h1
    · split
      · decide
      · intro c hc
        simp only at hc
        have hc2 := List.mem_of_mem_take hc
        rw [List.mem_reverse] at hc2
        have hc3 := mem_dropWhile hc2
        rw [List.mem_reverse] at hc3
        have hc4 := mem_dropWhile hc3
        exact collapseInvalid_allowed _ false c hc4

theorem normalizeAgentId_ne_nil (v : Option String) :
    (normalizeAgentId v).data ≠ [] := by
  simp only [normalizeAgentId]
  split
  · decide
  · split
    · rename_i h0 h1
      unfold strToLower
      simp only [ne_eq, List.map_eq_nil_iff]
      intro hnil
      exact h0 ((string_data_eq_nil_iff _).mp hnil)
    · split
      · decide
      · rename_i h2
        simpa [List.isEmpty_iff] using h2

theorem normalizeMainKey_ne_nil (v : Option String) :
    (normalizeMainKey v).data ≠ [] := by
  simp only [normalizeMainKey]
  split
  · rename_i h0
    unfold strToLower
    simp only [ne_eq, List.map_eq_nil_iff]
    intro hnil
    exact h0 ((string_data_eq_nil_iff _).mp hnil)
  · decide

theorem string_mk_data (s : String) : String.mk s.data = s := by
  cases s
  rfl

theorem mem_of_head? {l : List Char} {c : Char} (h : l.head? = some c) : c ∈ l := by
  cases l with
  | nil => cases h
  | cons d rest =>
    simp only [List.head?_cons, Option.some_inj] at h
    rw [← h]
    exact List.mem_cons_self d rest

theorem map_lower_fixed {l : List Char} (h : ∀ c ∈ l, isAllowedIdChar c = true) :
    l.map lowerChar = l := by
  induction l with
  | nil => rfl
  | cons c cs ih =>
    rw [List.map_cons, lowerChar_of_allowed (h c (List.mem_cons_self c cs)),
      ih (fun d hd => h d (List.mem_cons_of_mem c hd))]

theorem validTenantId_chars {t : String} (h : isValidTenantId t = true) :
    ∀ c ∈ t.data, isAllowedIdChar c = true := by
  unfold isValidTenantId at h
  cases hdata : t.data with
  | nil => rw [hdata] at h; simp at h
  | cons e rest =>
    rw [hdata] at h
    simp only [Bool.and_eq_true, List.all_eq_true] at h
    intro c hc
    cases hc with
    | head => simp [isAllowedIdChar, h.1.1]
    | tail _ hm => exact h.2 c hm

theorem strTrim_fixed_of_allowed {s : String}
    (h : ∀ c ∈ s.data, isAllowedIdChar c = true) : strTrim s = s := by
  unfold strTrim
  have h1 : ∀ c, s.data.head? = some c → isWsChar c = false := fun c hc =>
    isWsChar_of_allowed (h c (mem_of_head? hc))
  have h2 : ∀ c, s.data.reverse.head? = some c → isWsChar c = false := by
    intro c hc
    have hm := mem_of_head? hc
    rw [List.mem_reverse] at hm
    exact isWsChar_of_allowed (h c hm)
  rw [trimList_eq_self h1 h2]

theorem strToLower_fixed_of_allowed {s : String}
    (h : ∀ c ∈ s.data, isAllowedIdChar c = true) : strToLower s = s := by
  unfold strToLower
  rw [map_lower_fixed h]

theorem normalizeMainKey_lower_fixed (v : Option String) :
    (normalizeMainKey v).data.map lowerChar = (normalizeMainKey v).data := by
  simp only [normalizeMainKey]
  split
  · unfold strToLower
    simp only
    rw [List.map_map]
    exact List.map_congr_left (fun c _ => lowerChar_idem c)
  · decide

theorem head_map (f : Char → Char) (l : List Char) :
    (l.map f).head? = l.head?.map f := by
  cases l <;> rfl

theorem normalizeMainKey_rev_head_not_ws (v : Option String) :
    ∀ c, (normalizeMainKey v).data.reverse.head? = some c → isWsChar c = false := by
  simp only [normalizeMainKey]
  split
  · intro c hc
    unfold strToLower strTrim at hc
    simp only at hc
    rw [← List.map_reverse] at hc
    unfold trimList at hc
    rw [List.reverse_reverse] at hc
    rw [head_map] at hc
    cases hY : (List.dropWhile isWsChar
        (((v.getD "").data.dropWhile isWsChar).reverse)).head? with
    | none => rw [hY] at hc; cases hc
    | some d =>
      rw [hY] at hc
      simp only [Option.map_some', Option.some_inj] at hc
      rw [← hc]
      exact isWsChar_lowerChar (head_dropWhile_false hY)
  · intro c hc
    have h2 : (DEFAULT_MAIN_KEY : String).data.reverse.head? = some 'n' := by decide
    rw [h2] at hc
    have : c = 'n' := (Option.some_inj.mp hc).symm
    rw [this]
    decide

theorem head_append_ne {l1 l2 : List Char} (h : l1 ≠ []) :
    (l1 ++ l2).head? = l1.head? := by
  cases l1 with
  | nil => cases h rfl
  | cons c cs => rfl

theorem validTenantId_data_ne_nil {t : String} (h : isValidTenantId t = true) :
    t.data ≠ [] := by
  unfold isValidTenantId at h
  cases hdata : t.data with
  | nil => rw [hdata] at h; simp at h
  | cons e rest => simp

theorem agentKey_data (agentId : String) (mainKey : Option String) :
    (buildAgentMainSessionKey agentId mainKey).data =
      "agent:".data ++ ((normalizeAgentId (some agentId)).data ++
        ':' :: (normalizeMainKey mainKey).data) := by
  unfold buildAgentMainSessionKey
  rw [strData_append, strData_append, strData_append]
  have hcolon : (":" : String).data = [':'] := rfl
  rw [hcolon]
  simp [List.append_assoc]

theorem parse_agentKey (agentId : String) (mainKey : Option String) :
    parseAgentSessionKey (buildAgentMainSessionKey agentId mainKey) =
      some { agentId := normalizeAgentId (some agentId),
             rest := normalizeMainKey mainKey } := by
  have hdata := agentKey_data agentId mainKey
  have hstart : strStartsWith (buildAgentMainSessionKey agentId mainKey) "agent:" = true := by
    unfold strStartsWith
    rw [hdata]
    exact startsWithList_self_append _ _
  have hdrop : (buildAgentMainSessionKey agentId mainKey).data.drop 6 =
      (normalizeAgentId (some agentId)).data ++ ':' :: (normalizeMainKey mainKey).data := by
    rw [hdata]
    have h6 : ("agent:" : String).data.length = 6 := rfl
    rw [← h6]
    exact List.drop_left _ _
  have hsplit : splitFirstColon ((normalizeAgentId (some agentId)).data ++
      ':' :: (normalizeMainKey mainKey).data) =
      some ((normalizeAgentId (some agentId)).data, (normalizeMainKey mainKey).data) :=
    splitFirstColon_append
      (fun c hc => not_colon_of_allowed (normalizeAgentId_allowed (some agentId) c hc)) _
  unfold parseAgentSessionKey
  rw [hstart, hdrop, hsplit]
  have h1 : (normalizeAgentId (some agentId)).data.isEmpty = false := by
    rw [List.isEmpty_eq_false_iff_exists_mem]
    cases hd : (normalizeAgentId (some agentId)).data with
    | nil => exact absurd hd (normalizeAgentId_ne_nil _)
    | cons c cs => exact ⟨c, List.mem_cons_self c cs⟩
  have h2 : (normalizeMainKey mainKey).data.isEmpty = false := by
    rw [List.isEmpty_eq_false_iff_exists_mem]
    cases hd : (normalizeMainKey mainKey).data with
    | nil => exact absurd hd (normalizeMainKey_ne_nil _)
    | cons c cs => exact ⟨c, List.mem_cons_self c cs⟩
  simp only [h1, h2, Bool.or_self, Bool.false_eq_true, if_false]
  rw [string_mk_data, string_mk_data]
  simp

/-- Decomposition of the data of a built tenant session key, after the
tenant id is fixed by trim and lower-casing. -/
theorem tenantKey_data {tenantId : String} (agentId : String) (mainKey : Option String)
    (hvalid : isValidTenantId tenantId = true) :
    (buildTenantSessionKey tenantId agentId mainKey).data =
      "tenant:".data ++ (tenantId.data ++
        ':' :: (buildAgentMainSessionKey agentId mainKey).data) := by
  have hchars := validTenantId_chars hvalid
  unfold buildTenantSessionKey
  rw [strTrim_fixed_of_allowed hchars, strToLower_fixed_of_allowed hchars]
  rw [strData_append, strData_append, strData_append]
  have hcolon : (":" : String).data = [':'] := rfl
  rw [hcolon]
  simp [List.append_assoc]

/-- C9: for every tenant id matching the tenant id pattern and every agent id
and optional main key, parsing the built tenant session key round-trips:
parseTenantSessionKey returns a result whose tenant id is the (already
lower-case) input tenant id, whose agent id is the normalized agent id, and
whose rest is the normalized main key (defaulting to main). -/
theorem c9_build_parse_roundtrip (tenantId agentId : String) (mainKey : Option String)
    (hvalid : isValidTenantId tenantId = true) :
    parseTenantSessionKey (buildTenantSessionKey tenantId agentId mainKey) =
      some { tenantId := tenantId,
             agentKey := buildAgentMainSessionKey agentId mainKey,
             agentId := normalizeAgentId (some agentId),
             rest := normalizeMainKey mainKey } := by
  have hchars := validTenantId_chars hvalid
  have hkeydata := tenantKey_data agentId mainKey hvalid
  have hhead : (buildTenantSessionKey tenantId agentId mainKey).data.head? = some 't' := by
    rw [hkeydata]
    rfl
  have h1 : ∀ c, (buildTenantSessionKey tenantId agentId mainKey).data.head? = some c →
      isWsChar c = false := by
    intro c hc
    rw [hhead] at hc
    have : c = 't' := (Option.some_inj.mp hc).symm
    rw [this]
    decide
  have h2 : ∀ c, (buildTenantSessionKey tenantId agentId mainKey).data.reverse.head? =
      some c → isWsChar c = false := by
    intro c hc
    rw [hkeydata, agentKey_data] at hc
    simp only [List.reverse_append, List.reverse_cons, List.append_assoc] at hc
    rw [head_append_ne] at hc
    · exact normalizeMainKey_rev_head_not_ws mainKey c hc
    · simp only [ne_eq, List.reverse_eq_nil_iff]
      exact normalizeMainKey_ne_nil mainKey
  have htrim : strTrim (buildTenantSessionKey tenantId agentId mainKey) =
      buildTenantSessionKey tenantId agentId mainKey := by
    unfold strTrim
    rw [trimList_eq_self h1 h2]
  have hmap : (buildTenantSessionKey tenantId agentId mainKey).data.map lowerChar =
      (buildTenantSessionKey tenantId agentId mainKey).data := by
    rw [hkeydata, agentKey_data]
    simp only [List.map_append, List.map_cons, List.map_nil]
    rw [map_lower_fixed hchars]
    rw [map_lower_fixed (normalizeAgentId_allowed (some agentId))]
    rw [normalizeMainKey_lower_fixed]
    simp only [show lowerChar 't' = 't' from by decide,
      show lowerChar 'e' = 'e' from by decide,
      show lowerChar 'n' = 'n' from by decide,
      show lowerChar 'a' = 'a' from by decide,
      show lowerChar 'g' = 'g' from by decide,
      show lowerChar ':' = ':' from by decide]
  have hlower : strToLower (buildTenantSessionKey tenantId agentId mainKey) =
      buildTenantSessionKey tenantId agentId mainKey := by
    unfold strToLower
    rw [hmap]
  have hstart : strStartsWith (buildTenantSessionKey tenantId agentId mainKey)
      "tenant:" = true := by
    unfold strStartsWith
    rw [hkeydata]
    exact startsWithList_self_append _ _
  have hdrop : (buildTenantSessionKey tenantId agentId mainKey).data.drop 7 =
      tenantId.data ++ ':' :: (buildAgentMainSessionKey agentId mainKey).data := by
    rw [hkeydata]
    have h7 : ("tenant:" : String).data.length = 7 := rfl
    rw [← h7]
    exact List.drop_left _ _
  have hsplit : splitFirstColon (tenantId.data ++
      ':' :: (buildAgentMainSessionKey agentId mainKey).data) =
      some (tenantId.data, (buildAgentMainSessionKey agentId mainKey).data) :=
    splitFirstColon_append (fun c hc => not_colon_of_allowed (hchars c hc)) _
  have hne1 : tenantId.data.isEmpty = false := by
    rw [List.isEmpty_eq_false_iff_exists_mem]
    cases hd : tenantId.data with
    | nil => exact absurd hd (validTenantId_data_ne_nil hvalid)
    | cons c cs => exact ⟨c, List.mem_cons_self c cs⟩
  have hne2 : (buildAgentMainSessionKey agentId mainKey).data.isEmpty = false := by
    rw [agentKey_data]
    rfl
  simp only [parseTenantSessionKey]
  rw [htrim, hlower, hstart, hdrop, hsplit]
  simp only [Bool.not_true, Bool.false_eq_true, if_false, hne1, hne2, Bool.or_self]
  rw [string_mk_data, parse_agentKey, string_mk_data]

/-- Closed instance of the C9 round trip at the concrete tenant id demo,
agent id Beta and main key Custom. -/
theorem c9_witness :
    isValidTenantId "demo" = true ∧
      parseTenantSessionKey (buildTenantSessionKey "demo" "Beta" (some "Custom")) =
        some { tenantId := "demo", agentKey := "agent:beta:custom",
               agentId := "beta", rest := "custom" } :=
  ⟨by decide, (c9_build_parse_roundtrip "demo" "Beta" (some "Custom") (by decide)).trans
    (by decide)⟩

/-! Model of the session-key scoping of the HTTP surface. -/

/-- Result of scoping a session key to a tenant: the scoped key or an error
message. -/
inductive ScopeResult where
  | ok (sessionKey : String)
  | err (error : String)
deriving DecidableEq, Repr

/-- Modelled from the spec: scopeSessionKeyToTenant of
src/src/gateway/http-utils.ts is not under src (only its test file is).
Per the spec, with no tenant id the key passes through unchanged; a key that
already carries the prefix tenant:X: is kept unchanged when X equals the
authenticated tenant id and rejected with an error message containing the
words does not match authenticated tenant otherwise; any other key receives
the tenant prefix. -/
def scopeSessionKeyToTenant (sessionKey : String) (tenantId : Option String) :
    ScopeResult :=
  match tenantId with
  | none => ScopeResult.ok sessionKey
  | some tid =>
    if strStartsWith sessionKey "tenant:" then
      match splitFirstColon (sessionKey.data.drop 7) with
      | some (x, _) =>
        if (String.mk x) = tid then ScopeResult.ok sessionKey
        else ScopeResult.err "session key does not match authenticated tenant"
      | none => ScopeResult.ok ("tenant:" ++ tid ++ ":" ++ sessionKey)
    else ScopeResult.ok ("tenant:" ++ tid ++ ":" ++ sessionKey)

/-- Outcome of the session-key handling of the chat-completions endpoint:
HTTP status, error kind, and the session key handed to the agent runner
(none when the runner is not invoked). -/
structure ChatSessionOutcome where
  status : Nat
  errorKind : Option String
  runnerSessionKey : Option String
deriving DecidableEq, Repr

/-- Modelled from the spec: the chat-completions HTTP handler of the gateway
is not under src. Per the spec, a tenant-authenticated call passes the
client-supplied session key through scopeSessionKeyToTenant; a mismatched
tenant prefix produces a 403 forbidden response without invoking the
downstream agent runner, and otherwise the runner is invoked with the
scoped key. -/
def chatCompletionsSessionScope (tenantId : Option String) (sessionKey : String) :
    ChatSessionOutcome :=
  match scopeSessionKeyToTenant sessionKey tenantId with
  | ScopeResult.err _ =>
    { status := 403, errorKind := some "forbidden", runnerSessionKey := none }
  | ScopeResult.ok k =>
    { status := 200, errorKind := none, runnerSessionKey := some k }

/-- C3: a session key with prefix tenant:Y: presented under an authenticated
tenant X different from Y is rejected by scopeSessionKeyToTenant with a
message containing the words does not match authenticated tenant, and at the
chat-completions surface it yields a 403 forbidden response with the agent
runner not invoked. -/
theorem c3_cross_tenant_sessionKey_rejected (y x rest : String)
    (hx : x ≠ y) (hy : ∀ c ∈ y.data, (c == ':') = false) :
    scopeSessionKeyToTenant ("tenant:" ++ y ++ ":" ++ rest) (some x) =
      ScopeResult.err "session key does not match authenticated tenant" ∧
    strContains "session key does not match authenticated tenant"
      "does not match authenticated tenant" = true ∧
    chatCompletionsSessionScope (some x) ("tenant:" ++ y ++ ":" ++ rest) =
      { status := 403, errorKind := some "forbidden", runnerSessionKey := none } := by
  have hdata : ("tenant:" ++ y ++ ":" ++ rest).data =
      "tenant:".data ++ (y.data ++ ':' :: rest.data) := by
    rw [strData_append, strData_append, strData_append]
    have hcolon : (":" : String).data = [':'] := rfl
    rw [hcolon]
    simp [List.append_assoc]
  have hstart : strStartsWith ("tenant:" ++ y ++ ":" ++ rest) "tenant:" = true := by
    unfold strStartsWith
    rw [hdata]
    exact startsWithList_self_append _ _
  have hdrop : ("tenant:" ++ y ++ ":" ++ rest).data.drop 7 = y.data ++ ':' :: rest.data := by
    rw [hdata]
    have h7 : ("tenant:" : String).data.length = 7 := rfl
    rw [← h7]
    exact List.drop_left _ _
  have hsplit : splitFirstColon (y.data ++ ':' :: rest.data) = some (y.data, rest.data) :=
    splitFirstColon_append hy _
  have hyx : (String.mk y.data = x) = False := by
    rw [string_mk_data]
    exact eq_false (fun h => hx h.symm)
  have hscope : scopeSessionKeyToTenant ("tenant:" ++ y ++ ":" ++ rest) (some x) =
      ScopeResult.err "session key does not match authenticated tenant" := by
    unfold scopeSessionKeyToTenant
    rw [hstart, hdrop, hsplit]
    simp only [hyx, Bool.true_eq_false, if_false, if_true]
  refine ⟨hscope, by decide, ?_⟩
  unfold chatCompletionsSessionScope
  rw [hscope]

/-- Closed instance of C3 at the concrete inputs of the spec scenario: tenant
tenant-a authenticated, session key tenant:other:agent:beta:openai:custom. -/
theorem c3_witness :
    ("tenant-a" : String) ≠ "other" ∧
      (∀ c ∈ ("other" : String).data, (c == ':') = false) ∧
      chatCompletionsSessionScope (some "tenant-a")
          "tenant:other:agent:beta:openai:custom" =
        { status := 403, errorKind := some "forbidden", runnerSessionKey := none } := by
  refine ⟨by decide, by decide, ?_⟩
  have h := c3_cross_tenant_sessionKey_rejected "other" "tenant-a"
    "agent:beta:openai:custom" (by decide) (by decide)
  have h2 := h.2.2
  have hk : ("tenant:" ++ "other" ++ ":" ++ "agent:beta:openai:custom" : String) =
      "tenant:other:agent:beta:openai:custom" := by decide
  rw [hk] at h2
  exact h2

/-! Claim theorems for the method authorizer and the terminal handlers. -/

/-- C1 counterexample: node.invoke.result is outside the tenant allow-list,
yet an operator connection with a tenant id and admin scope is rejected with
the message unauthorized role rather than one containing method not
available for tenant token. -/
theorem c1_counterexample :
    authorizeGatewayMethod "node.invoke.result"
        (some { connect := some { role := some "operator",
                                  scopes := some ["operator.admin"] },
                tenantId := some "tenant-a", connId := some "conn-1" }) =
      some (errorShape "INVALID_REQUEST" "unauthorized role: operator") ∧
    TENANT_ALLOWED_METHODS.contains "node.invoke.result" = false ∧
    strContains "unauthorized role: operator"
      "method not available for tenant token" = false :=
  ⟨by decide, by decide, by decide⟩

/-- C1 (amended): for every method outside both the tenant allow-list and the
node-role method set, an operator-role connection carrying a non-empty tenant
id is rejected with INVALID_REQUEST and a message containing method not
available for tenant token, regardless of its scopes. -/
theorem c1_tenant_allowlist_rejection (method t : String) (role : Option String)
    (scopes : Option (List String)) (connId : Option String)
    (hallow : TENANT_ALLOWED_METHODS.contains method = false)
    (hnode : NODE_ROLE_METHODS.contains method = false)
    (hrole : role.getD "operator" = "operator")
    (ht : t ≠ "") :
    authorizeGatewayMethod method
        (some { connect := some { role := role, scopes := scopes },
                tenantId := some t, connId := connId }) =
      some (errorShape "INVALID_REQUEST"
        ("method not available for tenant token: " ++ method)) ∧
    strContains ("method not available for tenant token: " ++ method)
      "method not available for tenant token" = true := by
  constructor
  · simp only [authorizeGatewayMethod, hnode, hrole, hallow, optStrTruthy]
    simp [ht]
  · unfold strContains
    rw [strData_append]
    have hsplit2 : ("method not available for tenant token: " : String).data =
        ("method not available for tenant token" : String).data ++
          (": " : String).data := by decide
    rw [hsplit2, List.append_assoc]
    exact containsSub_self_append _ _

/-- Closed instance of the amended C1 at the blocked method wizard.start with
read and write scopes, matching the spec scenario. -/
theorem c1_witness :
    TENANT_ALLOWED_METHODS.contains "wizard.start" = false ∧
    NODE_ROLE_METHODS.contains "wizard.start" = false ∧
    (some "operator" : Option String).getD "operator" = "operator" ∧
    ("tenant-a" : String) ≠ "" ∧
    (authorizeGatewayMethod "wizard.start"
        (some { connect := some { role := some "operator",
                                  scopes := some ["operator.read", "operator.write"] },
                tenantId := some "tenant-a", connId := some "conn-1" }) =
      some (errorShape "INVALID_REQUEST"
        ("method not available for tenant token: " ++ "wizard.start")) ∧
    strContains ("method not available for tenant token: " ++ "wizard.start")
      "method not available for tenant token" = true) :=
  ⟨by decide, by decide, by decide, by decide,
    c1_tenant_allowlist_rejection "wizard.start" "tenant-a" (some "operator")
      (some ["operator.read", "operator.write"]) (some "conn-1")
      (by decide) (by decide) (by decide) (by decide)⟩

/-- C2 counterexample: a tenant-b connection carrying the operator.admin
scope writes successfully to a PTY owned by tenant-a; the handler responds
ok, forwards the data, and bumps lastActivityAt, contrary to the claim that
the denial holds even for tenant-authenticated admin-scoped callers. -/
theorem c2_counterexample :
    terminalWrite
        [{ terminalId := "t1", tenantId := "tenant-a", connId := "c0", pid := 100,
           createdAt := 0, lastActivityAt := 0 }]
        (some { connect := some { role := some "operator",
                                  scopes := some ["operator.admin"] },
                tenantId := some "tenant-b", connId := some "c9" })
        { terminalId := some "t1", data := some "x" } 5 =
      { ok := true, written := some 1, error := none,
        sessions := [{ terminalId := "t1", tenantId := "tenant-a", connId := "c0",
                       pid := 100, createdAt := 0, lastActivityAt := 5 }],
        ptyWrites := [("t1", "x")] } := by decide

/-- C2 (amended): a terminal.write call from a connection authenticated as a
tenant different from the session owner and without the operator.admin scope
is rejected with UNAUTHORIZED, forwards nothing to the PTY, and leaves the
session map (lastActivityAt included) unchanged. -/
theorem c2_cross_tenant_write_denied (sessions : List TermSession)
    (connect : Option ConnectParams) (connId : Option String)
    (b termId data : String) (s : TermSession) (now : Int)
    (hfind : findSession sessions termId = some s)
    (hne : s.tenantId ≠ b)
    (hadmin : hasAdminScope
      (some { connect := connect, tenantId := some b, connId := connId }) = false)
    (htid : termId ≠ "") :
    terminalWrite sessions
        (some { connect := connect, tenantId := some b, connId := connId })
        { terminalId := some termId, data := some data } now =
      { ok := false, written := none,
        error := some (errorShape "UNAUTHORIZED" "Access denied"),
        sessions := sessions, ptyWrites := [] } := by
  simp only [terminalWrite, getTenantId, optStrTruthy, hfind, hadmin, jsStrEqOpt,
    Option.getD_some]
  simp [htid, beq_eq_false_iff_ne.mpr hne, hfind]

/-- Closed instance of the amended C2: tenant-b with read and write scopes is
denied writing to tenant-a's terminal t1 and nothing is forwarded. -/
theorem c2_witness :
    findSession
        [{ terminalId := "t1", tenantId := "tenant-a", connId := "c0", pid := 100,
           createdAt := 0, lastActivityAt := 0 }] "t1" =
      some { terminalId := "t1", tenantId := "tenant-a", connId := "c0", pid := 100,
             createdAt := 0, lastActivityAt := 0 } ∧
    ("tenant-a" : String) ≠ "tenant-b" ∧
    hasAdminScope
      (some { connect := some { role := some "operator", scopes := some ["operator.read", "operator.write"] }, tenantId := some "tenant-b", connId := some "c9" }) = false ∧
    ("t1" : String) ≠ "" ∧
    terminalWrite
        [{ terminalId := "t1", tenantId := "tenant-a", connId := "c0", pid := 100,
           createdAt := 0, lastActivityAt := 0 }]
        (some { connect := some { role := some "operator",
                                  scopes := some ["operator.read", "operator.write"] },
                tenantId := some "tenant-b", connId := some "c9" })
        { terminalId := some "t1", data := some "x" } 5 =
      { ok := false, written := none,
        error := some (errorShape "UNAUTHORIZED" "Access denied"),
        sessions := [{ terminalId := "t1", tenantId := "tenant-a", connId := "c0",
                       pid := 100, createdAt := 0, lastActivityAt := 0 }],
        ptyWrites := [] } :=
  ⟨by decide, by decide, by decide, by decide,
    c2_cross_tenant_write_denied
      [{ terminalId := "t1", tenantId := "tenant-a", connId := "c0", pid := 100, createdAt := 0, lastActivityAt := 0 }]
      (some { role := some "operator", scopes := some ["operator.read", "operator.write"] })
      (some "c9") "tenant-b" "t1" "x"
      { terminalId := "t1", tenantId := "tenant-a", connId := "c0", pid := 100, createdAt := 0, lastActivityAt := 0 }
      5 (by decide) (by decide) (by decide) (by decide)⟩

/-- C10: a terminal.list call from a connection without a tenant id and
without the operator.admin scope returns no sessions at all, for every state
of the session map in which each stored session carries a non-empty tenant
id. -/
theorem c10_tenantless_non_admin_list_empty (sessions : List TermSession)
    (connect : Option ConnectParams) (connId : Option String)
    (hadmin : hasAdminScope
      (some { connect := connect, tenantId := none, connId := connId }) = false)
    (hne : ∀ s ∈ sessions, s.tenantId ≠ "") :
    terminalList sessions
      (some { connect := connect, tenantId := none, connId := connId }) = [] := by
  unfold terminalList
  simp only [getTenantId, hadmin, jsStrEqOpt, Bool.false_or]
  simp

/-- Closed instance of C10: one session owned by tenant-a, caller with read
scope and no tenant id, empty list returned. -/
theorem c10_witness :
    hasAdminScope
      (some { connect := some { role := some "operator", scopes := some ["operator.read"] }, tenantId := none, connId := some "c1" }) = false ∧
    (∀ s ∈ [({ terminalId := "t1", tenantId := "tenant-a", connId := "c0", pid := 100,
               createdAt := 0, lastActivityAt := 0 } : TermSession)], s.tenantId ≠ "") ∧
    terminalList
        [{ terminalId := "t1", tenantId := "tenant-a", connId := "c0", pid := 100,
           createdAt := 0, lastActivityAt := 0 }]
        (some { connect := some { role := some "operator",
                                  scopes := some ["operator.read"] },
                tenantId := none, connId := some "c1" }) = [] :=
  ⟨by decide, by decide,
    c10_tenantless_non_admin_list_empty _ _ _ (by decide) (by decide)⟩

/-! Model of the tenant registry (registry.ts and types.ts, src/unnamed/part_005).
The SHA-256 hash and the random secret of node:crypto are external
primitives; they enter the model as an explicit function parameter and an
explicit argument. File persistence is modelled by passing the registry
value in and out. -/

/-- Split a character list on every occurrence of the separator, modelling
the JavaScript String.split method. -/
def splitOnChar (sep : Char) : List Char → List (List Char)
  | [] => [[]]
  | c :: rest =>
    if c == sep then [] :: splitOnChar sep rest
    else
      match splitOnChar sep rest with
      | [] => [[c]]
      | g :: gs => (c :: g) :: gs

/-- Join character lists with the separator, modelling Array.prototype.join. -/
def joinChar (sep : Char) : List (List Char) → List Char
  | [] => []
  | [g] => g
  | g :: gs => g ++ sep :: joinChar sep gs

theorem splitOnChar_ne_nil (sep : Char) (l : List Char) : splitOnChar sep l ≠ [] := by
  cases l with
  | nil => simp [splitOnChar]
  | cons c rest =>
    unfold splitOnChar
    by_cases hc : (c == sep) = true
    · simp [hc]
    · simp only [hc]
      cases hs : splitOnChar sep rest with
      | nil => simp
      | cons g gs => simp

theorem splitOnChar_sep_append {l1 : List Char} {sep : Char}
    (h : ∀ c ∈ l1, (c == sep) = false) (l2 : List Char) :
    splitOnChar sep (l1 ++ sep :: l2) = l1 :: splitOnChar sep l2 := by
  induction l1 with
  | nil =>
    simp [splitOnChar]
  | cons c rest ih =>
    have hc : (c == sep) = false := h c (List.mem_cons_self c rest)
    have hrest : ∀ d ∈ rest, (d == sep) = false := fun d hd =>
      h d (List.mem_cons_of_mem c hd)
    simp only [List.cons_append, splitOnChar, hc]
    have hr := ih hrest
    simp only [List.append_eq] at hr ⊢
    rw [hr]
    simp

theorem joinChar_cons_of_ne_nil {sep : Char} {S : List (List Char)}
    (h : S ≠ []) (a : List Char) :
    joinChar sep (a :: S) = a ++ sep :: joinChar sep S := by
  cases S with
  | nil => cases h rfl
  | cons g gs => rfl

theorem joinChar_splitOnChar (sep : Char) (l : List Char) :
    joinChar sep (splitOnChar sep l) = l := by
  induction l with
  | nil => rfl
  | cons c rest ih =>
    unfold splitOnChar
    by_cases hceq : c = sep
    · subst hceq
      rw [if_pos (by simp)]
      rw [joinChar_cons_of_ne_nil (splitOnChar_ne_nil c rest)]
      rw [ih]
      rfl
    · rw [if_neg (by simpa using hceq)]
      cases hs : splitOnChar sep rest with
      | nil => cases splitOnChar_ne_nil sep rest hs
      | cons g gs =>
        rw [hs] at ih
        cases gs with
        | nil =>
          show joinChar sep [c :: g] = c :: rest
          show c :: g = c :: rest
          rw [← ih]
          rfl
        | cons g2 gs2 =>
          show joinChar sep ((c :: g) :: g2 :: gs2) = c :: rest
          rw [joinChar_cons_of_ne_nil (by simp)]
          rw [joinChar_cons_of_ne_nil (by simp)] at ih
          simp only [List.cons_append]
          rw [ih]

/-- A stored tenant entry of the registry. -/
structure TenantEntry where
  tokenHash : String
  createdAt : String
  lastSeenAt : Option String
  displayName : Option String
  disabled : Option Bool
deriving DecidableEq, Repr

/-- The tenant registry map, as an association list keyed by tenant id. -/
abbrev TenantRegistry := List (String × TenantEntry)

/-- Lookup of a tenant entry by id. -/
def lookupTenant (registry : TenantRegistry) (tenantId : String) : Option TenantEntry :=
  (registry.find? (fun p => p.1 == tenantId)).map (fun p => p.2)

/-- Model of buildTenantToken from tenants/types.ts. -/
def buildTenantToken (tenantId secret : String) : String :=
  "tenant:" ++ tenantId ++ ":" ++ secret

/-- Model of parseTenantToken from tenants/types.ts: require the tenant
marker, split on colons, take the second part as the tenant id and rejoin
the remainder as the secret; reject empty parts. -/
def parseTenantToken (token : String) : Option (String × String) :=
  if !(strStartsWith token "tenant:") then none
  else
    let parts := splitOnChar ':' token.data
    if parts.length < 3 then none
    else
      match parts with
      | _ :: tenantIdL :: rest =>
        let secretL := joinChar ':' rest
        if tenantIdL.isEmpty || secretL.isEmpty then none
        else some (String.mk tenantIdL, String.mk secretL)
      | _ => none

/-- Model of safeEqualHash from registry.ts: reject unequal lengths, then
compare with the constant-time primitive, modelled by byte equality. -/
def safeEqualHash (a b : String) : Bool :=
  if a.length != b.length then false
  else a == b

/-- Result of creating a tenant: the id, the one-time plaintext token, and
the creation timestamp. -/
structure CreateTenantResult where
  tenantId : String
  token : String
  createdAt : String
deriving DecidableEq, Repr

/-- Model of createTenant from registry.ts. The externally generated random
secret, the hash function, and the clock value are explicit arguments;
directory initialization is outside the model. Returns the saved registry
together with the create result, or the thrown error message. -/
def createTenant (hashToken : String → String) (secret : String)
    (tenantId : String) (displayName : Option String) (createdAt : String)
    (registry : TenantRegistry) :
    Except String (TenantRegistry × CreateTenantResult) :=
  if !(isValidTenantId tenantId) then
    Except.error "Invalid tenant ID"
  else if (lookupTenant registry tenantId).isSome then
    Except.error "Tenant already exists"
  else
    let tokenHash := hashToken secret
    let entry : TenantEntry :=
      { tokenHash := tokenHash, createdAt := createdAt, lastSeenAt := none,
        displayName := displayName, disabled := none }
    Except.ok ((tenantId, entry) :: registry,
      { tenantId := tenantId, token := buildTenantToken tenantId secret,
        createdAt := createdAt })

/-- Tenant context returned by a successful token validation. -/
structure TenantContext where
  tenantId : String
  tokenHash : String
  stateDir : String
  createdAt : String
  lastSeenAt : Option String
deriving DecidableEq, Repr

/-- Model of resolveTenantStateDir from paths.ts: the base state directory,
or its tenants/tenantId subdirectory. -/
def resolveTenantStateDir (baseDir : String) (tenantId : Option String) : String :=
  match tenantId with
  | none => baseDir
  | some tid => baseDir ++ "/tenants/" ++ tid

/-- Model of validateTenantToken from registry.ts: parse the token, find the
tenant, reject disabled entries, hash the presented secret and compare it
with the stored hash through safeEqualHash, then stamp lastSeenAt with the
clock value and return the context. -/
def validateTenantToken (hashToken : String → String) (baseDir : String)
    (nowIso : String) (token : String) (registry : TenantRegistry) :
    Option TenantContext :=
  match parseTenantToken token with
  | none => none
  | some (tenantId, secret) =>
    match lookupTenant registry tenantId with
    | none => none
    | some entry =>
      if entry.disabled.getD false then none
      else
        let providedHash := hashToken secret
        if !(safeEqualHash providedHash entry.tokenHash) then none
        else
          some { tenantId := tenantId, tokenHash := entry.tokenHash,
                 stateDir := resolveTenantStateDir baseDir (some tenantId),
                 createdAt := entry.createdAt, lastSeenAt := some nowIso }

theorem parseTenantToken_build {tenantId : String} (secret : String)
    (hvalid : isValidTenantId tenantId = true) (hsec : secret ≠ "") :
    parseTenantToken (buildTenantToken tenantId secret) = some (tenantId, secret) := by
  have hchars := validTenantId_chars hvalid
  have hdata : (buildTenantToken tenantId secret).data =
      ("tenant:" : String).data ++ (tenantId.data ++ ':' :: secret.data) := by
    unfold buildTenantToken
    rw [strData_append, strData_append, strData_append]
    have hc2 : (":" : String).data = [':'] := rfl
    rw [hc2]
    simp [List.append_assoc]
  have hstart : strStartsWith (buildTenantToken tenantId secret) "tenant:" = true := by
    unfold strStartsWith
    rw [hdata]
    exact startsWithList_self_append _ _
  have hdata2 : (buildTenantToken tenantId secret).data =
      ("tenant" : String).data ++ ':' :: (tenantId.data ++ ':' :: secret.data) := by
    rw [hdata]
    rfl
  have hsplit : splitOnChar ':' (buildTenantToken tenantId secret).data =
      ("tenant" : String).data :: tenantId.data :: splitOnChar ':' secret.data := by
    rw [hdata2]
    rw [splitOnChar_sep_append (by decide)]
    rw [splitOnChar_sep_append (fun c hc => not_colon_of_allowed (hchars c hc))]
  have hlen : ¬((("tenant" : String).data :: tenantId.data ::
      splitOnChar ':' secret.data).length < 3) := by
    simp only [List.length_cons]
    have hp : 0 < (splitOnChar ':' secret.data).length :=
      List.length_pos.mpr (splitOnChar_ne_nil ':' secret.data)
    omega
  have htidne : tenantId.data.isEmpty = false := by
    rw [List.isEmpty_eq_false_iff_exists_mem]
    cases hd : tenantId.data with
    | nil => exact absurd hd (validTenantId_data_ne_nil hvalid)
    | cons c cs => exact ⟨c, List.mem_cons_self c cs⟩
  have hsecne : secret.data.isEmpty = false := by
    rw [List.isEmpty_eq_false_iff_exists_mem]
    cases hd : secret.data with
    | nil => exact absurd ((string_data_eq_nil_iff secret).mp hd) hsec
    | cons c cs => exact ⟨c, List.mem_cons_self c cs⟩
  simp only [parseTenantToken]
  rw [hstart, hsplit]
  simp only [Bool.not_true, Bool.false_eq_true, if_false]
  rw [if_neg hlen]
  rw [joinChar_splitOnChar]
  simp only [htidne, hsecne, Bool.or_self, Bool.false_eq_true, if_false]

/-- C4: the token returned by createTenant for a fresh valid tenant id
round-trips through validation: validateTenantToken applied to the token and
the saved registry returns a context whose tenant id equals the created id
and whose state directory ends with /tenants/ followed by the id. -/
theorem c4_create_validate_roundtrip (hashToken : String → String)
    (secret tenantId createdAt baseDir nowIso : String) (displayName : Option String)
    (registry : TenantRegistry)
    (hvalid : isValidTenantId tenantId = true)
    (hfresh : lookupTenant registry tenantId = none)
    (hsec : secret ≠ "") :
    ∃ reg2 res,
      createTenant hashToken secret tenantId displayName createdAt registry =
        Except.ok (reg2, res) ∧
      ∃ ctx,
        validateTenantToken hashToken baseDir nowIso res.token reg2 = some ctx ∧
        ctx.tenantId = tenantId ∧
        strEndsWith ctx.stateDir ("/tenants/" ++ tenantId) = true := by
  refine ⟨(tenantId, { tokenHash := hashToken secret, createdAt := createdAt, lastSeenAt := none, displayName := displayName, disabled := none }) :: registry, { tenantId := tenantId, token := buildTenantToken tenantId secret, createdAt := createdAt }, ?_, ?_⟩
  · simp only [createTenant, hvalid, hfresh]
    simp
  · refine ⟨{ tenantId := tenantId, tokenHash := hashToken secret, stateDir := resolveTenantStateDir baseDir (some tenantId), createdAt := createdAt, lastSeenAt := some nowIso }, ?_, rfl, ?_⟩
    · simp only [validateTenantToken]
      rw [parseTenantToken_build secret hvalid hsec]
      simp [lookupTenant, List.find?, safeEqualHash]
    · show strEndsWith (baseDir ++ "/tenants/" ++ tenantId)
        ("/tenants/" ++ tenantId) = true
      unfold strEndsWith
      rw [strData_append, strData_append, strData_append, List.append_assoc]
      exact endsWithList_append _ _

/-- Closed instance of C4 at tenant id demo with a concrete hash function
and secret, matching the spec scenario S1. -/
theorem c4_witness :
    isValidTenantId "demo" = true ∧
    lookupTenant [] "demo" = none ∧
    ("s3cr3t-token" : String) ≠ "" ∧
    (∃ reg2 res,
      createTenant (fun s => s ++ "-hash") "s3cr3t-token" "demo" none
          "2026-01-01T00:00:00Z" [] = Except.ok (reg2, res) ∧
      ∃ ctx,
        validateTenantToken (fun s => s ++ "-hash") "/root/.openclaw"
            "2026-01-02T00:00:00Z" res.token reg2 = some ctx ∧
        ctx.tenantId = "demo" ∧
        strEndsWith ctx.stateDir ("/tenants/" ++ "demo") = true) :=
  ⟨by decide, by decide, by decide,
    c4_create_validate_roundtrip (fun s => s ++ "-hash") "s3cr3t-token" "demo"
      "2026-01-01T00:00:00Z" "/root/.openclaw" "2026-01-02T00:00:00Z" none []
      (by decide) (by decide) (by decide)⟩

/-! Model of the tenant usage ledger (usage.ts, src/unnamed/part_004). File
reads and writes are modelled by passing the stored values in and returning
the written values; the clock, the current period, and the quota reset
timestamp are explicit arguments standing for Date.now, getCurrentPeriod and
getQuotaResetTimestamp. -/

/-- A tenant usage snapshot, mirroring TenantUsageSnapshot of types.ts. -/
structure TenantUsageSnapshot where
  tenantId : String
  period : String
  totalTokens : Int
  inputTokens : Int
  outputTokens : Int
  cacheReadTokens : Int
  cacheWriteTokens : Int
  totalCostCents : Int
  diskUsageBytes : Int
  workspaceBytes : Int
  agentDataBytes : Int
  memoryDbBytes : Int
  totalSessions : Int
  activeSessions : Int
  totalMessages : Int
  totalRequests : Int
  requestsThisMinute : Int
  requestsThisHour : Int
  sandboxCpuSeconds : Int
  sandboxPeakMemoryMB : Int
  updatedAt : Int
  quotaResetAt : Int
deriving DecidableEq, Repr

/-- Tenant quotas, mirroring TenantQuotas of types.ts; absent fields are
none. -/
structure TenantQuotas where
  monthlyTokenLimit : Option Int
  monthlyTokenSoftLimit : Option Int
  monthlyCostLimitCents : Option Int
  monthlyCostSoftLimitCents : Option Int
  diskSpaceLimitBytes : Option Int
  maxConcurrentSessions : Option Int
  requestsPerMinute : Option Int
  requestsPerHour : Option Int
  maxSandboxCpuPercent : Option Int
  maxSandboxMemoryMB : Option Int
  maxSandboxDiskMB : Option Int
  maxSandboxPids : Option Int
deriving DecidableEq, Repr

/-- Model of resolveTenantUsageDir from paths.ts. -/
def resolveTenantUsageDir (baseDir tenantId : String) : String :=
  resolveTenantStateDir baseDir (some tenantId) ++ "/usage"

/-- Model of resolveTenantUsageHistoryPath from paths.ts. -/
def resolveTenantUsageHistoryPath (baseDir tenantId period : String) : String :=
  resolveTenantUsageDir baseDir tenantId ++ "/" ++ period ++ ".json"

/-- Model of createEmptyUsageSnapshot from usage.ts. -/
def createEmptyUsageSnapshot (tenantId currentPeriod : String)
    (now quotaResetAt : Int) : TenantUsageSnapshot :=
  { tenantId := tenantId, period := currentPeriod,
    totalTokens := 0, inputTokens := 0, outputTokens := 0,
    cacheReadTokens := 0, cacheWriteTokens := 0, totalCostCents := 0,
    diskUsageBytes := 0, workspaceBytes := 0, agentDataBytes := 0,
    memoryDbBytes := 0, totalSessions := 0, activeSessions := 0,
    totalMessages := 0, totalRequests := 0, requestsThisMinute := 0,
    requestsThisHour := 0, sandboxCpuSeconds := 0, sandboxPeakMemoryMB := 0,
    updatedAt := now, quotaResetAt := quotaResetAt }

/-- Model of archiveUsageSnapshot from usage.ts: the file write it performs,
as the pair of the history path and the snapshot written there unchanged. -/
def archiveUsageSnapshot (baseDir tenantId : String)
    (snapshot : TenantUsageSnapshot) : String × TenantUsageSnapshot :=
  (resolveTenantUsageHistoryPath baseDir tenantId snapshot.period, snapshot)

/-- Model of loadTenantUsage from usage.ts: stored none models a missing
file (the ENOENT branch). Returns the snapshot handed back to the caller
together with the archive writes performed. -/
def loadTenantUsage (baseDir tenantId currentPeriod : String)
    (now quotaResetAt : Int) (stored : Option TenantUsageSnapshot) :
    TenantUsageSnapshot × List (String × TenantUsageSnapshot) :=
  match stored with
  | none => (createEmptyUsageSnapshot tenantId currentPeriod now quotaResetAt, [])
  | some snapshot =>
    if snapshot.period ≠ currentPeriod then
      (createEmptyUsageSnapshot tenantId currentPeriod now quotaResetAt,
        [archiveUsageSnapshot baseDir tenantId snapshot])
    else (snapshot, [])

/-- C6: when the stored snapshot's period differs from the current one,
loadTenantUsage archives the stored snapshot unchanged at the history path
usage/period.json and returns a fresh snapshot whose period is the current
one and whose every counter is zero. -/
theorem c6_period_rollover (baseDir tenantId currentPeriod : String)
    (now quotaResetAt : Int) (snapshot : TenantUsageSnapshot)
    (hperiod : snapshot.period ≠ currentPeriod) :
    loadTenantUsage baseDir tenantId currentPeriod now quotaResetAt (some snapshot) =
      (createEmptyUsageSnapshot tenantId currentPeriod now quotaResetAt,
        [(resolveTenantUsageDir baseDir tenantId ++ "/" ++ snapshot.period ++ ".json",
          snapshot)]) ∧
    (createEmptyUsageSnapshot tenantId currentPeriod now quotaResetAt).period =
      currentPeriod ∧
    (createEmptyUsageSnapshot tenantId currentPeriod now quotaResetAt).totalTokens = 0 ∧
    (createEmptyUsageSnapshot tenantId currentPeriod now quotaResetAt).inputTokens = 0 ∧
    (createEmptyUsageSnapshot tenantId currentPeriod now quotaResetAt).outputTokens = 0 ∧
    (createEmptyUsageSnapshot tenantId currentPeriod now quotaResetAt).cacheReadTokens = 0 ∧
    (createEmptyUsageSnapshot tenantId currentPeriod now quotaResetAt).cacheWriteTokens = 0 ∧
    (createEmptyUsageSnapshot tenantId currentPeriod now quotaResetAt).totalCostCents = 0 ∧
    (createEmptyUsageSnapshot tenantId currentPeriod now quotaResetAt).diskUsageBytes = 0 ∧
    (createEmptyUsageSnapshot tenantId currentPeriod now quotaResetAt).workspaceBytes = 0 ∧
    (createEmptyUsageSnapshot tenantId currentPeriod now quotaResetAt).agentDataBytes = 0 ∧
    (createEmptyUsageSnapshot tenantId currentPeriod now quotaResetAt).memoryDbBytes = 0 ∧
    (createEmptyUsageSnapshot tenantId currentPeriod now quotaResetAt).totalSessions = 0 ∧
    (createEmptyUsageSnapshot tenantId currentPeriod now quotaResetAt).activeSessions = 0 ∧
    (createEmptyUsageSnapshot tenantId currentPeriod now quotaResetAt).totalMessages = 0 ∧
    (createEmptyUsageSnapshot tenantId currentPeriod now quotaResetAt).totalRequests = 0 ∧
    (createEmptyUsageSnapshot tenantId currentPeriod now quotaResetAt).requestsThisMinute = 0 ∧
    (createEmptyUsageSnapshot tenantId currentPeriod now quotaResetAt).requestsThisHour = 0 ∧
    (createEmptyUsageSnapshot tenantId currentPeriod now quotaResetAt).sandboxCpuSeconds = 0 ∧
    (createEmptyUsageSnapshot tenantId currentPeriod now quotaResetAt).sandboxPeakMemoryMB = 0 := by
  refine ⟨?_, rfl, rfl, rfl, rfl, rfl, rfl, rfl, rfl, rfl, rfl, rfl, rfl, rfl, rfl,
    rfl, rfl, rfl, rfl, rfl⟩
  simp [loadTenantUsage, hperiod, archiveUsageSnapshot, resolveTenantUsageHistoryPath]

/-- Closed instance of C6: a stored snapshot for period 2025-12 loaded in
period 2026-01 is archived at usage/2025-12.json and replaced by zeros. -/
theorem c6_witness :
    (({ tenantId := "demo", period := "2025-12", totalTokens := 7, inputTokens := 3, outputTokens := 2, cacheReadTokens := 1, cacheWriteTokens := 1, totalCostCents := 5, diskUsageBytes := 9, workspaceBytes := 4, agentDataBytes := 3, memoryDbBytes := 2, totalSessions := 6, activeSessions := 1, totalMessages := 8, totalRequests := 11, requestsThisMinute := 2, requestsThisHour := 5, sandboxCpuSeconds := 12, sandboxPeakMemoryMB := 256, updatedAt := 100, quotaResetAt := 200 } : TenantUsageSnapshot).period ≠ "2026-01") ∧
    loadTenantUsage "/state" "demo" "2026-01" 1000 2000
        (some { tenantId := "demo", period := "2025-12", totalTokens := 7, inputTokens := 3, outputTokens := 2, cacheReadTokens := 1, cacheWriteTokens := 1, totalCostCents := 5, diskUsageBytes := 9, workspaceBytes := 4, agentDataBytes := 3, memoryDbBytes := 2, totalSessions := 6, activeSessions := 1, totalMessages := 8, totalRequests := 11, requestsThisMinute := 2, requestsThisHour := 5, sandboxCpuSeconds := 12, sandboxPeakMemoryMB := 256, updatedAt := 100, quotaResetAt := 200 }) =
      (createEmptyUsageSnapshot "demo" "2026-01" 1000 2000,
        [("/state/tenants/demo/usage/2025-12.json",
          { tenantId := "demo", period := "2025-12", totalTokens := 7, inputTokens := 3, outputTokens := 2, cacheReadTokens := 1, cacheWriteTokens := 1, totalCostCents := 5, diskUsageBytes := 9, workspaceBytes := 4, agentDataBytes := 3, memoryDbBytes := 2, totalSessions := 6, activeSessions := 1, totalMessages := 8, totalRequests := 11, requestsThisMinute := 2, requestsThisHour := 5, sandboxCpuSeconds := 12, sandboxPeakMemoryMB := 256, updatedAt := 100, quotaResetAt := 200 })]) :=
  ⟨by decide,
    ((c6_period_rollover "/state" "demo" "2026-01" 1000 2000
      { tenantId := "demo", period := "2025-12", totalTokens := 7, inputTokens := 3, outputTokens := 2, cacheReadTokens := 1, cacheWriteTokens := 1, totalCostCents := 5, diskUsageBytes := 9, workspaceBytes := 4, agentDataBytes := 3, memoryDbBytes := 2, totalSessions := 6, activeSessions := 1, totalMessages := 8, totalRequests := 11, requestsThisMinute := 2, requestsThisHour := 5, sandboxCpuSeconds := 12, sandboxPeakMemoryMB := 256, updatedAt := 100, quotaResetAt := 200 }
      (by decide)).1).trans (by decide)⟩

/-! Model of the rate limiting and quota enforcement of usage.ts. JavaScript
object literals returned by checkQuotaBeforeRequest are modelled as field
lists, so that which fields an object carries is part of the model. -/

/-- Rate limit state, mirroring RateLimitState of types.ts. -/
structure RateLimitState where
  minuteWindow : List Int
  hourWindow : List Int
  lastCleanup : Int
deriving DecidableEq, Repr

/-- Truthiness of an optional number in JavaScript: present and non-zero. -/
def optIntTruthy : Option Int → Bool
  | none => false
  | some v => v != 0

/-- Result of checkAndRecordRequest: the verdict and denial reason, the
rate-limit state as persisted (none when the request was denied and nothing
was saved), the usage snapshot as persisted, and the archive writes of the
embedded loadTenantUsage call. -/
structure RateCheckResult where
  allowed : Bool
  reason : Option String
  savedState : Option RateLimitState
  savedUsage : Option TenantUsageSnapshot
  archiveWrites : List (String × TenantUsageSnapshot)
deriving DecidableEq, Repr

/-- Model of checkAndRecordRequest from usage.ts: clean both sliding
windows, deny when a configured window is full, otherwise record the
request, persist the state, and update the usage snapshot counters. -/
def checkAndRecordRequest (baseDir tenantId currentPeriod : String)
    (now quotaResetAt : Int) (state : RateLimitState)
    (storedUsage : Option TenantUsageSnapshot) (quotas : TenantQuotas) :
    RateCheckResult :=
  let oneMinuteAgo := now - 60 * 1000
  let oneHourAgo := now - 60 * 60 * 1000
  let minuteWindow := state.minuteWindow.filter (fun t => t > oneMinuteAgo)
  let hourWindow := state.hourWindow.filter (fun t => t > oneHourAgo)
  let minuteDenied : Bool :=
    match quotas.requestsPerMinute with
    | some l => (minuteWindow.length : Int) ≥ l
    | none => false
  if minuteDenied then
    { allowed := false, reason := some "Rate limit exceeded (per minute)",
      savedState := none, savedUsage := none, archiveWrites := [] }
  else
    let hourDenied : Bool :=
      match quotas.requestsPerHour with
      | some l => (hourWindow.length : Int) ≥ l
      | none => false
    if hourDenied then
      { allowed := false, reason := some "Rate limit exceeded (per hour)",
        savedState := none, savedUsage := none, archiveWrites := [] }
    else
      let newState : RateLimitState :=
        { minuteWindow := minuteWindow ++ [now], hourWindow := hourWindow ++ [now],
          lastCleanup := now }
      let loaded := loadTenantUsage baseDir tenantId currentPeriod now quotaResetAt
        storedUsage
      let snapshot := loaded.1
      let snapshot2 := { snapshot with
        totalRequests := snapshot.totalRequests + 1,
        requestsThisMinute := (newState.minuteWindow.length : Int),
        requestsThisHour := (newState.hourWindow.length : Int),
        updatedAt := now }
      { allowed := true, reason := none, savedState := some newState,
        savedUsage := some snapshot2, archiveWrites := loaded.2 }

/-- Quota status, mirroring TenantQuotaStatus of types.ts; the floating
point percentages of the source are modelled as rationals. -/
structure TenantQuotaStatus where
  tenantId : String
  quotas : TenantQuotas
  usage : TenantUsageSnapshot
  tokenUsagePercent : ℚ
  costUsagePercent : ℚ
  diskUsagePercent : ℚ
  isOverTokenLimit : Bool
  isOverCostLimit : Bool
  isOverDiskLimit : Bool
  isAtSoftLimit : Bool
  isBlocked : Bool
deriving DecidableEq, Repr

/-- Model of getTenantQuotaStatus from usage.ts, with the loaded usage and
the archive writes of its loadTenantUsage call. -/
def getTenantQuotaStatus (baseDir tenantId currentPeriod : String)
    (now quotaResetAt : Int) (storedUsage : Option TenantUsageSnapshot)
    (quotas : TenantQuotas) :
    TenantQuotaStatus × List (String × TenantUsageSnapshot) :=
  let loaded := loadTenantUsage baseDir tenantId currentPeriod now quotaResetAt
    storedUsage
  let usage := loaded.1
  let tokenUsagePercent : ℚ :=
    match quotas.monthlyTokenLimit with
    | some l => if l != 0 then ((usage.totalTokens : ℚ) / (l : ℚ)) * 100 else 0
    | none => 0
  let costUsagePercent : ℚ :=
    match quotas.monthlyCostLimitCents with
    | some l => if l != 0 then ((usage.totalCostCents : ℚ) / (l : ℚ)) * 100 else 0
    | none => 0
  let diskUsagePercent : ℚ :=
    match quotas.diskSpaceLimitBytes with
    | some l => if l != 0 then ((usage.diskUsageBytes : ℚ) / (l : ℚ)) * 100 else 0
    | none => 0
  let isOverTokenLimit :=
    match quotas.monthlyTokenLimit with
    | some l => if l != 0 then usage.totalTokens ≥ l else false
    | none => false
  let isOverCostLimit :=
    match quotas.monthlyCostLimitCents with
    | some l => if l != 0 then usage.totalCostCents ≥ l else false
    | none => false
  let isOverDiskLimit :=
    match quotas.diskSpaceLimitBytes with
    | some l => if l != 0 then usage.diskUsageBytes ≥ l else false
    | none => false
  let isAtTokenSoftLimit :=
    match quotas.monthlyTokenSoftLimit with
    | some l => if l != 0 then usage.totalTokens ≥ l else false
    | none => false
  let isAtCostSoftLimit :=
    match quotas.monthlyCostSoftLimitCents with
    | some l => if l != 0 then usage.totalCostCents ≥ l else false
    | none => false
  ({ tenantId := tenantId, quotas := quotas, usage := usage,
     tokenUsagePercent := tokenUsagePercent, costUsagePercent := costUsagePercent,
     diskUsagePercent := diskUsagePercent, isOverTokenLimit := isOverTokenLimit,
     isOverCostLimit := isOverCostLimit, isOverDiskLimit := isOverDiskLimit,
     isAtSoftLimit := isAtTokenSoftLimit || isAtCostSoftLimit,
     isBlocked := isOverTokenLimit || isOverCostLimit || isOverDiskLimit },
   loaded.2)

/-- A JavaScript value as it appears in the returned quota-check objects. -/
inductive JVal where
  | jstr (v : String)
  | jbool (v : Bool)
  | jundef
deriving DecidableEq, Repr

/-- A JavaScript object, as the list of its fields in literal order. -/
abbrev JObj := List (String × JVal)

/-- Field lookup in a modelled JavaScript object. -/
def jlookup (o : JObj) (k : String) : Option JVal :=
  (o.find? (fun p => p.1 == k)).map (fun p => p.2)

/-- Rendering of a rational with one decimal digit, modelling the toFixed
calls that format percentages inside warning strings. -/
def toFixed1 (q : ℚ) : String :=
  let n : Int := Int.floor (q * 10 + 1 / 2)
  toString (n / 10) ++ "." ++ toString (n % 10).natAbs

/-- Model of checkQuotaBeforeRequest from usage.ts: the object literal of
the taken return site, as a field list. -/
def checkQuotaBeforeRequest (baseDir tenantId currentPeriod : String)
    (now quotaResetAt : Int) (state : RateLimitState)
    (storedUsage : Option TenantUsageSnapshot) (quotas : TenantQuotas) : JObj :=
  let rl := checkAndRecordRequest baseDir tenantId currentPeriod now quotaResetAt
    state storedUsage quotas
  if !rl.allowed then
    [("allowed", JVal.jbool false), ("reason", JVal.jstr "rate_limited"),
     ("message", match rl.reason with | some m => JVal.jstr m | none => JVal.jundef)]
  else
    let status := (getTenantQuotaStatus baseDir tenantId currentPeriod now
      quotaResetAt storedUsage quotas).1
    if status.isOverTokenLimit then
      [("allowed", JVal.jbool false), ("reason", JVal.jstr "quota_exceeded"),
       ("message", JVal.jstr "Monthly token quota exceeded")]
    else if status.isOverCostLimit then
      [("allowed", JVal.jbool false), ("reason", JVal.jstr "quota_exceeded"),
       ("message", JVal.jstr "Monthly cost limit exceeded")]
    else if status.isOverDiskLimit then
      [("allowed", JVal.jbool false), ("reason", JVal.jstr "disk_full"),
       ("message", JVal.jstr "Disk space limit exceeded")]
    else
      let sessionsDenied : Bool :=
        match quotas.maxConcurrentSessions with
        | some m => status.usage.activeSessions ≥ m
        | none => false
      if sessionsDenied then
        [("allowed", JVal.jbool false), ("reason", JVal.jstr "sessions_exceeded"),
         ("message", JVal.jstr "Maximum concurrent sessions reached")]
      else
        let warning : Option String :=
          if status.isAtSoftLimit then
            let tokenWarnings :=
              match quotas.monthlyTokenSoftLimit with
              | some l =>
                if l != 0 && status.usage.totalTokens ≥ l then
                  ["Token usage at " ++ toFixed1 status.tokenUsagePercent ++
                    "% of limit"]
                else []
              | none => []
            let costWarnings :=
              match quotas.monthlyCostSoftLimitCents with
              | some l =>
                if l != 0 && status.usage.totalCostCents ≥ l then
                  ["Cost at " ++ toFixed1 status.costUsagePercent ++ "% of limit"]
                else []
              | none => []
            some (String.intercalate "; " (tokenWarnings ++ costWarnings))
          else none
        [("allowed", JVal.jbool true),
         ("warning", match warning with | some w => JVal.jstr w | none => JVal.jundef)]

/-- C8 counterexample: with a requests-per-minute limit of zero configured
and empty windows, the rate check denies; checkQuotaBeforeRequest returns an
object carrying exactly the fields allowed, reason and message, and looking
up a retryAfterMs field yields nothing, contrary to the claim that the
denial shape includes a retry-after hint. -/
theorem c8_counterexample :
    checkQuotaBeforeRequest "/state" "demo" "2026-01" 1000 2000
        { minuteWindow := [], hourWindow := [], lastCleanup := 0 } none
        { monthlyTokenLimit := none, monthlyTokenSoftLimit := none, monthlyCostLimitCents := none, monthlyCostSoftLimitCents := none, diskSpaceLimitBytes := none, maxConcurrentSessions := none, requestsPerMinute := some 0, requestsPerHour := none, maxSandboxCpuPercent := none, maxSandboxMemoryMB := none, maxSandboxDiskMB := none, maxSandboxPids := none } =
      [("allowed", JVal.jbool false), ("reason", JVal.jstr "rate_limited"),
       ("message", JVal.jstr "Rate limit exceeded (per minute)")] ∧
    jlookup [("allowed", JVal.jbool false), ("reason", JVal.jstr "rate_limited"),
        ("message", JVal.jstr "Rate limit exceeded (per minute)")] "retryAfterMs" =
      none :=
  ⟨by decide, by decide⟩

/-- C8 (amended): whenever the rate check denies a request, the object
returned by checkQuotaBeforeRequest carries exactly the fields allowed,
reason and message, with reason rate_limited and the denial message of the
rate check; the shape carries no retryAfterMs field. -/
theorem c8_rate_limited_no_retry_hint (baseDir tenantId currentPeriod : String)
    (now quotaResetAt : Int) (state : RateLimitState)
    (storedUsage : Option TenantUsageSnapshot) (quotas : TenantQuotas)
    (hdeny : (checkAndRecordRequest baseDir tenantId currentPeriod now quotaResetAt
      state storedUsage quotas).allowed = false) :
    checkQuotaBeforeRequest baseDir tenantId currentPeriod now quotaResetAt state
        storedUsage quotas =
      [("allowed", JVal.jbool false), ("reason", JVal.jstr "rate_limited"),
       ("message",
         match (checkAndRecordRequest baseDir tenantId currentPeriod now quotaResetAt
             state storedUsage quotas).reason with
         | some m => JVal.jstr m
         | none => JVal.jundef)] ∧
    jlookup (checkQuotaBeforeRequest baseDir tenantId currentPeriod now quotaResetAt
      state storedUsage quotas) "retryAfterMs" = none ∧
    (checkQuotaBeforeRequest baseDir tenantId currentPeriod now quotaResetAt state
      storedUsage quotas).map Prod.fst = ["allowed", "reason", "message"] := by
  have hshape : checkQuotaBeforeRequest baseDir tenantId currentPeriod now
      quotaResetAt state storedUsage quotas =
      [("allowed", JVal.jbool false), ("reason", JVal.jstr "rate_limited"),
       ("message",
         match (checkAndRecordRequest baseDir tenantId currentPeriod now quotaResetAt
             state storedUsage quotas).reason with
         | some m => JVal.jstr m
         | none => JVal.jundef)] := by
    simp only [checkQuotaBeforeRequest, hdeny, Bool.not_false, if_true]
  refine ⟨hshape, ?_, ?_⟩
  · rw [hshape]
    simp only [jlookup, List.find?,
      show (("allowed" : String) == "retryAfterMs") = false from by decide,
      show (("reason" : String) == "retryAfterMs") = false from by decide,
      show (("message" : String) == "retryAfterMs") = false from by decide]
    rfl
  · rw [hshape]
    rfl

/-- Closed instance of the amended C8 at the concrete denial input of the
counterexample. -/
theorem c8_witness :
    (checkAndRecordRequest "/state" "demo" "2026-01" 1000 2000
        { minuteWindow := [], hourWindow := [], lastCleanup := 0 } none
        { monthlyTokenLimit := none, monthlyTokenSoftLimit := none, monthlyCostLimitCents := none, monthlyCostSoftLimitCents := none, diskSpaceLimitBytes := none, maxConcurrentSessions := none, requestsPerMinute := some 0, requestsPerHour := none, maxSandboxCpuPercent := none, maxSandboxMemoryMB := none, maxSandboxDiskMB := none, maxSandboxPids := none }).allowed = false ∧
    (checkQuotaBeforeRequest "/state" "demo" "2026-01" 1000 2000
        { minuteWindow := [], hourWindow := [], lastCleanup := 0 } none
        { monthlyTokenLimit := none, monthlyTokenSoftLimit := none, monthlyCostLimitCents := none, monthlyCostSoftLimitCents := none, diskSpaceLimitBytes := none, maxConcurrentSessions := none, requestsPerMinute := some 0, requestsPerHour := none, maxSandboxCpuPercent := none, maxSandboxMemoryMB := none, maxSandboxDiskMB := none, maxSandboxPids := none } =
      [("allowed", JVal.jbool false), ("reason", JVal.jstr "rate_limited"),
       ("message",
         match (checkAndRecordRequest "/state" "demo" "2026-01" 1000 2000
             { minuteWindow := [], hourWindow := [], lastCleanup := 0 } none
             { monthlyTokenLimit := none, monthlyTokenSoftLimit := none, monthlyCostLimitCents := none, monthlyCostSoftLimitCents := none, diskSpaceLimitBytes := none, maxConcurrentSessions := none, requestsPerMinute := some 0, requestsPerHour := none, maxSandboxCpuPercent := none, maxSandboxMemoryMB := none, maxSandboxDiskMB := none, maxSandboxPids := none }).reason with
         | some m => JVal.jstr m
         | none => JVal.jundef)] ∧
    jlookup (checkQuotaBeforeRequest "/state" "demo" "2026-01" 1000 2000
        { minuteWindow := [], hourWindow := [], lastCleanup := 0 } none
        { monthlyTokenLimit := none, monthlyTokenSoftLimit := none, monthlyCostLimitCents := none, monthlyCostSoftLimitCents := none, diskSpaceLimitBytes := none, maxConcurrentSessions := none, requestsPerMinute := some 0, requestsPerHour := none, maxSandboxCpuPercent := none, maxSandboxMemoryMB := none, maxSandboxDiskMB := none, maxSandboxPids := none })
      "retryAfterMs" = none ∧
    (checkQuotaBeforeRequest "/state" "demo" "2026-01" 1000 2000
        { minuteWindow := [], hourWindow := [], lastCleanup := 0 } none
        { monthlyTokenLimit := none, monthlyTokenSoftLimit := none, monthlyCostLimitCents := none, monthlyCostSoftLimitCents := none, diskSpaceLimitBytes := none, maxConcurrentSessions := none, requestsPerMinute := some 0, requestsPerHour := none, maxSandboxCpuPercent := none, maxSandboxMemoryMB := none, maxSandboxDiskMB := none, maxSandboxPids := none }).map
      Prod.fst = ["allowed", "reason", "message"]) :=
  ⟨by decide,
    c8_rate_limited_no_retry_hint "/state" "demo" "2026-01" 1000 2000
      { minuteWindow := [], hourWindow := [], lastCleanup := 0 } none
      { monthlyTokenLimit := none, monthlyTokenSoftLimit := none, monthlyCostLimitCents := none, monthlyCostSoftLimitCents := none, diskSpaceLimitBytes := none, maxConcurrentSessions := none, requestsPerMinute := some 0, requestsPerHour := none, maxSandboxCpuPercent := none, maxSandboxMemoryMB := none, maxSandboxDiskMB := none, maxSandboxPids := none }
      (by decide)⟩

/-! Model of the security filter of extractTarGz
(src/src/infra/system-metrics.ts). The resolve, join and dirname functions
of the node path module are modelled on slash-separated paths with an
absolute base, including the clamping of dot-dot segments at the root. -/

/-- Slash-separated segments of a path. -/
def pathSegs (p : String) : List String :=
  (splitOnChar '/' p.data).map String.mk

/-- Segment normalization of an absolute path: drop empty and dot segments,
let a dot-dot segment cancel the previous one and clamp it at the root. The
accumulator holds the kept segments in reverse. -/
def normSegs : List String → List String → List String
  | [], acc => acc.reverse
  | "" :: rest, acc => normSegs rest acc
  | "." :: rest, acc => normSegs rest acc
  | ".." :: rest, acc =>
    match acc with
    | [] => normSegs rest []
    | _ :: t => normSegs rest t
  | s :: rest, acc => normSegs rest (s :: acc)

/-- Normalization of an absolute slash path. -/
def normalizeAbs (p : String) : String :=
  "/" ++ String.intercalate "/" (normSegs (pathSegs p) [])

/-- Model of path.resolve with an absolute base directory. -/
def jsResolve (base p : String) : String :=
  if strStartsWith p "/" then normalizeAbs p else normalizeAbs (base ++ "/" ++ p)

/-- Model of path.resolve of a single already-absolute argument, as used to
compute the resolved target directory. -/
def jsResolve1 (p : String) : String :=
  normalizeAbs p

/-- Model of path.join with an absolute first argument. -/
def jsJoin (a b : String) : String :=
  normalizeAbs (a ++ "/" ++ b)

/-- Model of path.dirname on a normalized absolute path. -/
def jsDirname (p : String) : String :=
  "/" ++ String.intercalate "/" ((normSegs (pathSegs p) []).dropLast)

/-- The containment test the filter applies twice: the resolved path starts
with the resolved target directory plus separator, or equals it. -/
def insideTarget (resolvedTargetDir p : String) : Bool :=
  strStartsWith p (resolvedTargetDir ++ "/") || p == resolvedTargetDir

/-- Model of the filter function passed to tar.extract in extractTarGz,
applied to one archive entry: its path, its type string (File, Directory,
SymbolicLink or Link), and its link target when present. The first argument
is the resolved target directory. Returns false when the entry must not be
written. -/
def extractFilter (resolvedTargetDir entryPath entryType : String)
    (linkpath : Option String) : Bool :=
  let linkOk :=
    if entryType == "SymbolicLink" || entryType == "Link" then
      insideTarget resolvedTargetDir
        (jsResolve (jsDirname (jsJoin resolvedTargetDir entryPath))
          (linkpath.getD ""))
    else true
  if !linkOk then false
  else insideTarget resolvedTargetDir (jsResolve resolvedTargetDir entryPath)

/-- C7 counterexample: an entry whose path is absolute but resolves inside
the target directory passes the filter, contrary to the claim that the
filter rejects every entry with an absolute path. -/
theorem c7_counterexample :
    strStartsWith "/base/inner.txt" "/" = true ∧
    extractFilter (jsResolve1 "/base") "/base/inner.txt" "File" none = true :=
  ⟨by decide, by decide⟩

/-- C7 (amended): the filter passes an entry exactly when its resolved path
stays inside the resolved target directory and, for symbolic or hard links,
the resolved link target stays inside as well. So every entry resolving
outside the target and every link pointing outside is rejected, and benign
entries are still extracted; an entry with an absolute path is rejected only
through this resolved-path test (absolute-path neutralization is delegated
to the preservePaths false extraction option). -/
theorem c7_filter_characterization (resolvedTargetDir entryPath entryType : String)
    (linkpath : Option String) :
    extractFilter resolvedTargetDir entryPath entryType linkpath = true ↔
      (((entryType == "SymbolicLink" || entryType == "Link") = true →
          insideTarget resolvedTargetDir
            (jsResolve (jsDirname (jsJoin resolvedTargetDir entryPath))
              (linkpath.getD "")) = true) ∧
        insideTarget resolvedTargetDir (jsResolve resolvedTargetDir entryPath) =
          true) := by
  unfold extractFilter
  by_cases hl : (entryType == "SymbolicLink" || entryType == "Link") = true
  · simp only [hl, if_true]
    by_cases h2 : insideTarget resolvedTargetDir
        (jsResolve (jsDirname (jsJoin resolvedTargetDir entryPath))
          (linkpath.getD "")) = true
    · simp [h2]
    · have h2f : insideTarget resolvedTargetDir
          (jsResolve (jsDirname (jsJoin resolvedTargetDir entryPath))
            (linkpath.getD "")) = false := by
        simpa using h2
      simp [h2f]
  · have hlf : (entryType == "SymbolicLink" || entryType == "Link") = false := by
      simpa using hl
    simp [hlf]

end OpenclawMT
